import Mathlib

/-!
# BEX-CLI-ULTRA: verification of the agent orchestration core

Shallow embedding of the BEX CLI agent (`src/index.js`) and its local MCP
file-tool server (`src/unnamed/part_000`), with theorems settling the frozen
claims about conversation persistence, provider fallback, the bounded agent
loop, context-window construction, and the tool server's HTTP contract.

Conventions of the embedding:
* JavaScript strings are Lean `String`s; the JS string methods the code uses
  (`trim`, `toLowerCase`, `startsWith`, `split(' ')`, `includes('..')`) are
  modelled by structurally recursive functions over the character list, and
  `path.isAbsolute` with POSIX semantics (leading `/`).
* The remote model backends and the filesystem are external: their responses
  are passed in as explicit outcome parameters (`CallOutcome`, `FsOutcome`),
  and the command handlers' effects on the conversation during an agent-loop
  STEP as an explicit handler environment.
* `JSON.stringify` / `JSON.parse` of the history snapshot are modelled at the
  level of JSON documents (`Json` below); the byte-level text encoding is the
  platform library's concern.
-/

namespace Bex

/-! ## JS string primitives -/

/-- JS `String.prototype.trim`: strip whitespace from both ends. -/
def jsTrim (s : String) : String :=
  ⟨((s.data.dropWhile Char.isWhitespace).reverse.dropWhile
      Char.isWhitespace).reverse⟩

/-- JS `String.prototype.toLowerCase` (ASCII range). -/
def jsToLower (s : String) : String :=
  ⟨s.data.map Char.toLower⟩

/-- JS `String.prototype.startsWith`. -/
def jsStartsWith (s t : String) : Bool :=
  t.data.isPrefixOf s.data

/-- Helper for `split(' ')`: accumulate the current token (reversed). -/
def splitSpaceAux : List Char → List Char → List String
  | [], acc => [⟨acc.reverse⟩]
  | ' ' :: rest, acc => ⟨acc.reverse⟩ :: splitSpaceAux rest []
  | c :: rest, acc => splitSpaceAux rest (c :: acc)

/-- JS `String.prototype.split(' ')`: split on every single space. -/
def jsSplitSpace (s : String) : List String :=
  splitSpaceAux s.data []

/-! ## Data model: turns and the persisted snapshot -/

/-- One conversation entry, `{ role: 'user'|'model'|'system', content }`
(`src/index.js` line 72). -/
structure Turn where
  role : String
  content : String
deriving DecidableEq

/-- A JSON document, as far as the persisted history snapshot needs:
strings, arrays and objects. -/
inductive Json where
  | str (s : String)
  | arr (xs : List Json)
  | obj (fields : List (String × Json))

/-- `JSON.stringify` of one history entry: an object with the `role` and
`content` fields (the shape written by `fs.writeFileSync(MEMORY_FILE,
JSON.stringify(history, null, 2))`, `src/index.js` line 1034). -/
def encodeTurn (t : Turn) : Json :=
  .obj [("role", .str t.role), ("content", .str t.content)]

/-- The persisted snapshot of the whole conversation: a JSON array holding
every turn, in order (`src/index.js` line 1034). -/
def snapshot (hist : List Turn) : Json :=
  .arr (hist.map encodeTurn)

/-- Field lookup in a parsed JSON object (first match wins, as in a JS
property access on the parsed value). -/
def lookupField : List (String × Json) → String → Option Json
  | [], _ => none
  | (k, v) :: rest, key => if k == key then some v else lookupField rest key

/-- Reading one parsed snapshot entry back as a turn, i.e. the way the
program consumes `JSON.parse`d history entries through their `.role` and
`.content` properties. -/
def decodeTurn : Json → Option Turn
  | .obj fields =>
    match lookupField fields "role", lookupField fields "content" with
    | some (.str r), some (.str c) => some ⟨r, c⟩
    | _, _ => none
  | _ => none

/-- Decoding a parsed snapshot array element by element. -/
def decodeTurnList : List Json → Option (List Turn)
  | [] => some []
  | x :: rest =>
    match decodeTurn x, decodeTurnList rest with
    | some t, some ts => some (t :: ts)
    | _, _ => none

/-- `history = JSON.parse(fs.readFileSync(MEMORY_FILE, 'utf8'))`
(`src/index.js` line 1058): the startup restore of the persisted snapshot. -/
def restore : Json → Option (List Turn)
  | .arr xs => decodeTurnList xs
  | _ => none

/-! ## The MCP file-tool server (`src/unnamed/part_000`)

`POST /tools/:toolName` with body `{ arguments: [string, ...] }`. The
filesystem operation performed by the selected tool is abstracted as an
`FsOutcome` environment parameter. -/

/-- Outcome of the `await fs.*` call a tool handler performs: either the
operation's result text (the file content for `readFile`; ignored by the
write tools) or the thrown error's message. -/
inductive FsOutcome where
  | ok (out : String)
  | fail (msg : String)
deriving DecidableEq

/-- The response body: `{ output }` on success, `{ error }` otherwise. -/
inductive ToolBody where
  | output (s : String)
  | error (s : String)
deriving DecidableEq

/-- An HTTP response of the tool server. -/
structure ToolResponse where
  status : Nat
  body : ToolBody
deriving DecidableEq

/-- The names registered in the server's tool catalog
(`src/unnamed/part_000` lines 10-46). -/
def toolNames : List String := ["readFile", "writeFile", "appendFile"]

/-- Whether two consecutive `.` characters occur in a character list. -/
def hasDotDot : List Char → Bool
  | '.' :: '.' :: _ => true
  | _ :: rest => hasDotDot rest
  | [] => false

/-- `args[0].includes('..')` — whether `..` occurs in the string. -/
def containsDotDot (s : String) : Bool :=
  hasDotDot s.data

/-- `path.isAbsolute(args[0])`, POSIX semantics: a leading slash. -/
def isAbsolutePath (s : String) : Bool :=
  match s.data with
  | '/' :: _ => true
  | _ => false

/-- The guard `args && args[0] && (args[0].includes('..') ||
path.isAbsolute(args[0]))` (`src/unnamed/part_000` line 56): only the first
argument is inspected, and an absent or empty first argument is never
rejected. -/
def badFirstArg : List String → Bool
  | [] => false
  | a :: _ => a != "" && (containsDotDot a || isAbsolutePath a)

/-- The `POST /tools/:toolName` handler (`src/unnamed/part_000` lines
52-81): path check first, then the tool switch inside `try`, `404` on the
default branch, `500` with the error message when the filesystem operation
throws. -/
def handleToolPost (toolName : String) (args : List String) (env : FsOutcome) :
    ToolResponse :=
  if badFirstArg args then
    ⟨400, .error "Invalid file path. Only relative paths are allowed."⟩
  else if toolName == "readFile" then
    match env with
    | .ok content => ⟨200, .output content⟩
    | .fail m => ⟨500, .error m⟩
  else if toolName == "writeFile" then
    match env with
    | .ok _ => ⟨200, .output ("Successfully wrote to " ++ args.headD "")⟩
    | .fail m => ⟨500, .error m⟩
  else if toolName == "appendFile" then
    match env with
    | .ok _ => ⟨200, .output ("Successfully appended to " ++ args.headD "")⟩
    | .fail m => ⟨500, .error m⟩
  else ⟨404, .error "Tool not found"⟩

/-! ## The interactive chat path (`handleInput`, `src/index.js` lines 958-1054)

The two model backends are external; a backend's reply to one request is
passed in as a `CallOutcome`. `SYSTEM_INSTRUCTIONS` is recomputed from the
environment (`getSystemInstructions`, lines 146-154) and is therefore a
parameter. `GOOGLE_API_KEY`/`DEEPSEEK_API_KEY` presence (which decides
whether `geminiModel`/`deepseek` are initialized, lines 161-174) are the
booleans `gem`/`dsk`. -/

/-- The queued multimodal payload (`pendingImage`, `src/index.js` line 75):
`{ inlineData: { data, mimeType } }`. -/
structure Attachment where
  data : String
  mimeType : String
deriving DecidableEq

/-- One element of the `parts` array of a Gemini request. -/
inductive Part where
  | text (s : String)
  | image (a : Attachment)
deriving DecidableEq

/-- One entry of the Gemini `startChat` history. -/
structure GMessage where
  role : String
  text : String
deriving DecidableEq

/-- One entry of the DeepSeek (OpenAI-style) `messages` array. -/
structure DMessage where
  role : String
  content : String
deriving DecidableEq

/-- The outcome of one remote backend request: the reply text, or the
thrown error's message. -/
inductive CallOutcome where
  | ok (text : String)
  | err (msg : String)
deriving DecidableEq

/-- The mutable state the chat path touches: the conversation, the pending
attachment, and the persisted snapshot file (`none` = no `bex-memory.json`
on disk). -/
structure ChatState where
  history : List Turn
  pendingImage : Option Attachment
  file : Option Json

/-- A record of one actual backend invocation, with the request it was
sent. A call that fails before reaching the backend (missing API key) is
not recorded. -/
inductive BackendCall where
  | google (chatHistory : List GMessage) (parts : List Part)
  | deepseek (messages : List DMessage)

/-- What one run of the chat path produces: the overall result (the reply
text, or the error reaching the outer `catch`), the final state, and the
backend calls made. -/
structure ChatResult where
  response : Except String String
  state : ChatState
  trace : List BackendCall

/-- Gemini context-window mapping of one turn (`src/index.js` lines
973-976 and, identically, 489-492): `model` keeps role `model`, everything
else becomes role `user`, and `system` turns get the literal
`"SYSTEM INFO: "` marker prepended. -/
def gmapTurn (h : Turn) : GMessage :=
  ⟨if h.role == "model" then "model" else "user",
   (if h.role == "system" then "SYSTEM INFO: " else "") ++ h.content⟩

/-- DeepSeek mapping of one turn in the interactive path (`src/index.js`
line 994): `model` becomes `assistant`, all other roles (including
`system`) pass through unchanged, content untouched. -/
def dmapTurn (h : Turn) : DMessage :=
  ⟨if h.role == "model" then "assistant" else h.role, h.content⟩

/-- DeepSeek mapping of one turn in the agent-loop path (`src/index.js`
line 482): `model` becomes `assistant`, `system` becomes `user`, content
untouched. -/
def taskDmapTurn (h : Turn) : DMessage :=
  ⟨if h.role == "model" then "assistant"
    else if h.role == "system" then "user" else h.role,
   h.content⟩

/-- `callGoogle` (`src/index.js` lines 971-988). If the Gemini model is not
configured it throws before doing anything. Otherwise it builds the chat
history (all but the last turn, unless this is a system prompt), attaches
the pending image to the `parts` of the outgoing message and clears it
(consumed at attach time, lines 980-983), then sends; the result is the
reply text or the thrown error. Returns (result, new state, calls made). -/
def callGoogle (gem : Bool) (isp : Bool) (line : String) (gOut : CallOutcome)
    (st : ChatState) : Except String String × ChatState × List BackendCall :=
  if !gem then (.error "Google API Key missing.", st, [])
  else
    let chatHistory := (if isp then st.history else st.history.dropLast).map gmapTurn
    let parts := [Part.text line] ++
      (match st.pendingImage with
       | some a => [Part.image a]
       | none => [])
    let st1 : ChatState := { st with pendingImage := none }
    match gOut with
    | .ok t => (.ok t, st1, [.google chatHistory parts])
    | .err e => (.error e, st1, [.google chatHistory parts])

/-- The `messages` array built for DeepSeek in the interactive path
(`src/index.js` lines 992-996): the system instructions first, then the
mapped history, plus the raw line when this is a system prompt. -/
def deepseekMessages (sysInstr : String) (isp : Bool) (line : String)
    (hist : List Turn) : List DMessage :=
  ⟨"system", sysInstr⟩ :: hist.map dmapTurn ++
    (if isp then [⟨"user", line⟩] else [])

/-- `callDeepSeek` (`src/index.js` lines 990-1002). Throws if the client is
not configured; otherwise sends the messages array and returns the reply or
the thrown error. It never touches the pending image or any other state. -/
def callDeepSeek (dsk : Bool) (sysInstr : String) (isp : Bool) (line : String)
    (dOut : CallOutcome) (st : ChatState) :
    Except String String × ChatState × List BackendCall :=
  if !dsk then (.error "DeepSeek API Key missing.", st, [])
  else
    let messages := deepseekMessages sysInstr isp line st.history
    match dOut with
    | .ok t => (.ok t, st, [.deepseek messages])
    | .err e => (.error e, st, [.deepseek messages])

/-- Provider selection and fallback of the chat path (`src/index.js` lines
966-1014): `auto` resolves to `google` first; the primary's failure is
caught and, in `auto` mode only, the secondary (DeepSeek) is called on the
state the failed primary left behind; its result — success or error —
stands. In explicit modes the primary's error propagates unmodified. -/
def gatewayCall (mode : String) (gem dsk : Bool) (sysInstr : String)
    (gOut dOut : CallOutcome) (isp : Bool) (line : String) (st : ChatState) :
    Except String String × ChatState × List BackendCall :=
  let providerToUse := if mode == "auto" then "google" else mode
  let first :=
    if providerToUse == "google" then callGoogle gem isp line gOut st
    else callDeepSeek dsk sysInstr isp line dOut st
  match first with
  | (.ok t, st1, tr1) => (.ok t, st1, tr1)
  | (.error e, st1, tr1) =>
    if mode == "auto" && providerToUse == "google" then
      let second := callDeepSeek dsk sysInstr isp line dOut st1
      (second.1, second.2.1, tr1 ++ second.2.2)
    else (.error e, st1, tr1)

/-- The AI-chat branch of `handleInput` (`src/index.js` lines 958-1054),
up to the agentic-plan re-dispatch (lines 1037-1048, which re-enters
`handleInput` and so counts as further, separate invocations): push the
user turn (unless a system prompt), call the gateway, and on success append
exactly one model turn and overwrite the snapshot file with the full
history; on failure the error is reported and no state changes further. -/
def chatAI (mode : String) (gem dsk : Bool) (sysInstr : String)
    (gOut dOut : CallOutcome) (isp : Bool) (line : String) (st0 : ChatState) :
    ChatResult :=
  let st := if isp then st0
            else { st0 with history := st0.history ++ [⟨"user", line⟩] }
  match gatewayCall mode gem dsk sysInstr gOut dOut isp line st with
  | (.ok t, st2, tr) =>
    let hist := st2.history ++ [⟨"model", t⟩]
    ⟨.ok t, { st2 with history := hist, file := some (snapshot hist) }, tr⟩
  | (.error e, st2, tr) => ⟨.error e, st2, tr⟩

/-- The backend names of a call trace, in call order. -/
def calledBackends (tr : List BackendCall) : List String :=
  tr.map fun c =>
    match c with
    | .google _ _ => "google"
    | .deepseek _ => "deepseek"

/-- How many turns of a history are model-authored. -/
def modelTurnCount (hist : List Turn) : Nat :=
  (hist.filter fun t => t.role == "model").length

/-! ## The agent loop (`/task`, `src/index.js` lines 434-522) -/

/-- Every key of the `commands` table (`src/index.js` lines 213-911), in
source order. -/
def commandNames : List String :=
  ["/help", "/menu", "/quit", "/clear", "/provider", "/ls", "/read", "/write",
   "/append", "/delete", "/rename", "/save", "/download", "/image", "/sandbox",
   "/exec", "/task", "/auto", "/workflow", "/browser", "/google", "/url",
   "/open", "/visit", "/click", "/type", "/dump", "/screenshot", "/mcp_list",
   "/mcp_add", "/mcp_tools", "/mcp_call", "/multiline", "/status",
   "/persistent", "/grep", "/glob", "/git", "/project", "/memory"]

/-- Whether a command's handler blocks on operator confirmation: `/delete`
is the only handler that prompts before acting (`rlConfirm.question`,
`src/index.js` lines 362-377). -/
def confirmationBlocking (cmd : String) : Bool :=
  cmd == "/delete"

/-- Classification of a (trimmed) model action during a loop STEP
(`src/index.js` lines 505-516): the completion token first
(case-insensitive, `command.toLowerCase() === '/done'`); otherwise a
`/`-led action is split on spaces and dispatched through the full
`commands` table when its first token is a key, with a system
`Unknown command.` turn pushed otherwise; any other text is not executed. -/
inductive ActionKind where
  | done
  | registered (cmd : String) (args : List String)
  | unknownCommand
  | plain
deriving DecidableEq

/-- See `ActionKind`. -/
def classifyAction (command : String) : ActionKind :=
  if jsToLower command == "/done" then .done
  else if jsStartsWith command "/" then
    let parts := jsSplitSpace command
    let cmd := parts.headD ""
    if commandNames.contains cmd then .registered cmd parts.tail
    else .unknownCommand
  else .plain

/-- The backend selection of one agent-loop STEP (`src/index.js` lines
477-498) reduced to its result: DeepSeek when the provider is `deepseek`,
or `auto` without a configured Gemini model; Google otherwise. A missing
key throws; otherwise the chosen backend's outcome stands. No fallback. -/
def providerResult (mode : String) (gem dsk : Bool) (gOut dOut : CallOutcome) :
    Except String String :=
  if mode == "deepseek" || (mode == "auto" && !gem) then
    if !dsk then .error "DeepSeek API Key missing."
    else
      match dOut with
      | .ok t => .ok t
      | .err e => .error e
  else
    if !gem then .error "Google API Key missing."
    else
      match gOut with
      | .ok t => .ok t
      | .err e => .error e

/-- The request actually sent by one agent-loop STEP (same branching as
`providerResult`): DeepSeek gets the instructions plus the task-mapped
history (`src/index.js` lines 479-485); Gemini gets all but the last turn
as chat history and the last turn — marker-prefixed when it is a system
turn — as the message (lines 488-496). The loop's Gemini request never
carries the pending image. -/
def stepTrace (mode : String) (gem dsk : Bool) (sysInstr : String)
    (hist : List Turn) : List BackendCall :=
  if mode == "deepseek" || (mode == "auto" && !gem) then
    if !dsk then []
    else [.deepseek (⟨"system", sysInstr⟩ :: hist.map taskDmapTurn)]
  else
    if !gem then []
    else
      let lastMsg := hist.getLastD ⟨"user", ""⟩
      [.google (hist.dropLast.map gmapTurn)
        [Part.text ((if lastMsg.role == "system" then "SYSTEM INFO: " else "")
          ++ lastMsg.content)]]

/-- Terminal situation of one agent-loop invocation: the completion token
was seen (`break` at line 507), an exception was caught (`spinner.fail` +
`break`, lines 517-519), or the step budget ran out (the `while` guard,
line 473) — which the loop leaves without any report. -/
inductive TermState where
  | done
  | aborted (msg : String)
  | maxStepsReached
deriving DecidableEq

/-- What one `/task` invocation produces: the final conversation, the
snapshot file (untouched by the loop itself), the terminal situation, the
number of STEPs entered, the command handlers invoked through the table,
and the backend calls made. -/
structure LoopResult where
  history : List Turn
  file : Option Json
  state : TermState
  steps : Nat
  invoked : List String
  trace : List BackendCall

/-- The `while (step++ < maxSteps)` loop of `/task` (`src/index.js` lines
470-521), by remaining budget. Each STEP: call the provider (abort on a
thrown error); append the trimmed reply as a model turn; stop on the
completion token; dispatch a `/`-led reply through the `commands` table —
the invoked handler's effect on the conversation, or its thrown error
(which aborts the STEP like a provider error), comes from the `handlers`
environment — pushing `Unknown command.` as a system turn for an
unregistered name; leave any other reply unexecuted. -/
def runSteps (mode : String) (gem dsk : Bool) (sysInstr : String)
    (gOut dOut : Nat → CallOutcome)
    (handlers : String → List String → List Turn → Except String (List Turn)) :
    Nat → Nat → List Turn → Option Json → List String → List BackendCall →
    LoopResult
  | 0, n, hist, file, inv, tr => ⟨hist, file, .maxStepsReached, n, inv, tr⟩
  | fuel + 1, n, hist, file, inv, tr =>
    let tr1 := tr ++ stepTrace mode gem dsk sysInstr hist
    match providerResult mode gem dsk (gOut n) (dOut n) with
    | .error e => ⟨hist, file, .aborted e, n + 1, inv, tr1⟩
    | .ok resp =>
      let command := jsTrim resp
      let hist1 := hist ++ [⟨"model", command⟩]
      match classifyAction command with
      | .done => ⟨hist1, file, .done, n + 1, inv, tr1⟩
      | .registered cmd args =>
        match handlers cmd args hist1 with
        | .error e => ⟨hist1, file, .aborted e, n + 1, inv ++ [cmd], tr1⟩
        | .ok hist2 =>
          runSteps mode gem dsk sysInstr gOut dOut handlers fuel (n + 1)
            hist2 file (inv ++ [cmd]) tr1
      | .unknownCommand =>
        runSteps mode gem dsk sysInstr gOut dOut handlers fuel (n + 1)
          (hist1 ++ [⟨"system", "Unknown command."⟩]) file inv tr1
      | .plain =>
        runSteps mode gem dsk sysInstr gOut dOut handlers fuel (n + 1)
          hist1 file inv tr1

/-- The START turn of a `/task` invocation (`src/index.js` lines 448-468):
one user turn holding the goal, the allow-listed command subset, and the
operating contract. -/
def taskGoalTurn (goal : String) : Turn :=
  ⟨"user",
   "GOAL: " ++ goal ++
   "\n\nYou are an autonomous agent. Execute the task step-by-step.\n" ++
   "AVAILABLE COMMANDS:\n" ++
   "- /exec <cmd>: Run shell command\n" ++
   "- /read <file>: Read file\n" ++
   "- /write <file> <content>: Write file (creates/overwrites)\n" ++
   "- /append <file> <content>: Append to file\n" ++
   "- /ls [path]: List files\n" ++
   "- /browser: Open browser\n" ++
   "- /visit <url>: Visit website\n" ++
   "- /dump: Get page text\n" ++
   "- /click <selector>: Click element\n" ++
   "- /type <selector> <text>: Type text\n" ++
   "- /google <query>: Search Google\n" ++
   "- /done: Task complete\n" ++
   "\nINSTRUCTIONS:\n" ++
   "1. Output ONE command at a time.\n" ++
   "2. Wait for the result (SYSTEM INFO).\n" ++
   "3. If the goal is achieved, output \"/done\".\n" ++
   "4. Do not output markdown blocks for commands, just the command text.\n"⟩

/-- One `/task <goal>` invocation (`src/index.js` lines 434-522): push the
START user turn, then run the bounded loop from a zero step counter. -/
def runTask (goal mode : String) (gem dsk : Bool) (sysInstr : String)
    (gOut dOut : Nat → CallOutcome)
    (handlers : String → List String → List Turn → Except String (List Turn))
    (maxSteps : Nat) (hist0 : List Turn) (file0 : Option Json) : LoopResult :=
  runSteps mode gem dsk sysInstr gOut dOut handlers maxSteps 0
    (hist0 ++ [taskGoalTurn goal]) file0 [] []

/-- The step bound hard-coded in `/task` (`src/index.js` line 471). -/
def taskMaxSteps : Nat := 20

/-! ## Theorems -/

/-- Claim C5: restoring the persisted snapshot of a conversation yields the
ordered turn sequence that was serialized: `restore (snapshot hist) = hist`
for every turn sequence. -/
theorem restore_snapshot_round_trip (hist : List Turn) :
    restore (snapshot hist) = some hist := by
  induction hist with
  | nil => rfl
  | cons t ts ih =>
    simp only [snapshot, List.map_cons, restore, decodeTurnList] at *
    rw [ih]
    rfl

/-- Claim C9: the tool server's invocation endpoint answers `400` with an
error body when the first argument contains a traversal sequence or is
absolute, `404` for an unknown tool name, `500` with the error message when
the tool's filesystem operation fails, and `{ output }` (status 200)
otherwise. -/
theorem toolServer_status_contract (toolName : String) (args : List String)
    (env : FsOutcome) :
    (badFirstArg args = true →
      handleToolPost toolName args env =
        ⟨400, .error "Invalid file path. Only relative paths are allowed."⟩) ∧
    (badFirstArg args = false → toolName ∉ toolNames →
      handleToolPost toolName args env = ⟨404, .error "Tool not found"⟩) ∧
    (badFirstArg args = false → toolName ∈ toolNames → ∀ m, env = .fail m →
      handleToolPost toolName args env = ⟨500, .error m⟩) ∧
    (badFirstArg args = false → toolName ∈ toolNames → ∀ out, env = .ok out →
      ∃ s, handleToolPost toolName args env = ⟨200, .output s⟩) := by
  refine ⟨fun hbad => ?_, fun hok hunk => ?_, fun hok hmem m hm => ?_,
    fun hok hmem out ho => ?_⟩
  · simp [handleToolPost, hbad]
  · simp only [toolNames, List.mem_cons, List.mem_singleton, not_or] at hunk
    obtain ⟨h1, h2, h3, -⟩ := hunk
    simp [handleToolPost, hok, h1, h2, h3]
  · simp only [toolNames, List.mem_cons, List.mem_singleton] at hmem
    subst hm
    rcases hmem with rfl | rfl | rfl | h
    · simp [handleToolPost, hok]
    · simp [handleToolPost, hok]
    · simp [handleToolPost, hok]
    · simp at h
  · simp only [toolNames, List.mem_cons, List.mem_singleton] at hmem
    subst ho
    rcases hmem with rfl | rfl | rfl | h
    · exact ⟨out, by simp [handleToolPost, hok]⟩
    · exact ⟨"Successfully wrote to " ++ args.headD "", by simp [handleToolPost, hok]⟩
    · exact ⟨"Successfully appended to " ++ args.headD "", by simp [handleToolPost, hok]⟩
    · simp at h

/-- Witness for C9: each branch of the status contract evaluated at a
concrete request. -/
theorem toolServer_status_contract_witness :
    handleToolPost "readFile" ["../secret"] (.ok "z") =
      ⟨400, .error "Invalid file path. Only relative paths are allowed."⟩ ∧
    handleToolPost "noSuchTool" ["notes.txt"] (.ok "z") =
      ⟨404, .error "Tool not found"⟩ ∧
    handleToolPost "readFile" ["notes.txt"] (.fail "EACCES") =
      ⟨500, .error "EACCES"⟩ ∧
    ∃ s, handleToolPost "readFile" ["notes.txt"] (.ok "data") =
      ⟨200, .output s⟩ :=
  ⟨(toolServer_status_contract "readFile" ["../secret"] (.ok "z")).1 (by decide),
   (toolServer_status_contract "noSuchTool" ["notes.txt"] (.ok "z")).2.1
     (by decide) (by decide),
   (toolServer_status_contract "readFile" ["notes.txt"] (.fail "EACCES")).2.2.1
     (by decide) (by decide) "EACCES" rfl,
   (toolServer_status_contract "readFile" ["notes.txt"] (.ok "data")).2.2.2
     (by decide) (by decide) "data" rfl⟩

/-- Claim C10: the path check runs before tool-name resolution — a request
whose first argument contains `..` or is absolute gets `400` even when the
tool name is unknown — and only the first argument is ever path-checked:
with an acceptable first argument the response is never `400`, whatever the
remaining arguments contain. -/
theorem toolServer_validation_order (toolName a : String) (rest : List String)
    (env : FsOutcome) :
    (a ≠ "" → (containsDotDot a = true ∨ isAbsolutePath a = true) →
      handleToolPost toolName (a :: rest) env =
        ⟨400, .error "Invalid file path. Only relative paths are allowed."⟩) ∧
    (badFirstArg (a :: rest) = false →
      (handleToolPost toolName (a :: rest) env).status ≠ 400) := by
  constructor
  · intro hne hbad
    have hb : badFirstArg (a :: rest) = true := by
      simp only [badFirstArg, Bool.and_eq_true, bne_iff_ne, ne_eq,
        Bool.or_eq_true]
      exact ⟨hne, hbad⟩
    simp [handleToolPost, hb]
  · intro hok
    simp only [handleToolPost, hok, Bool.false_eq_true, if_false]
    split
    · cases env <;> simp
    · split
      · cases env <;> simp
      · split
        · cases env <;> simp
        · simp

/-- Witness for C10: an unknown tool with a traversal first argument is
rejected with `400` (the `404` branch is unreachable), and a request whose
second argument contains a traversal sequence is not rejected. -/
theorem toolServer_validation_order_witness :
    handleToolPost "noSuchTool" ["../../etc/passwd"] (.ok "z") =
      ⟨400, .error "Invalid file path. Only relative paths are allowed."⟩ ∧
    (handleToolPost "readFile" ["notes.txt", "../../etc/passwd"] (.ok "c")).status ≠ 400 :=
  ⟨(toolServer_validation_order "noSuchTool" "../../etc/passwd" [] (.ok "z")).1
      (by decide) (by decide),
   (toolServer_validation_order "readFile" "notes.txt" ["../../etc/passwd"] (.ok "c")).2
      (by decide)⟩

/-- Claim C4 counterexample: a Google call that fails (the send throws
after the attachment was already consumed) leaves the PendingAttachment
cleared, not present: with an image queued and the call failing, the state
afterwards has `pendingImage = none`, so it cannot be re-sent. -/
theorem pendingImage_lost_on_failed_call :
    (chatAI "google" true false "S" (.err "boom") (.ok "r") false "hi"
      ⟨[], some ⟨"IMG", "image/png"⟩, none⟩).response = .error "boom" ∧
    (chatAI "google" true false "S" (.err "boom") (.ok "r") false "hi"
      ⟨[], some ⟨"IMG", "image/png"⟩, none⟩).state.pendingImage = none := by
  exact ⟨rfl, rfl⟩

/-- Claim C4 as amended: the queued attachment is attached to the outgoing
Google request, but it is consumed at attach time, before the call
completes — after any Google call with the model configured the attachment
is cleared, success or failure alike. A call failing before the attach
point (missing key) leaves it queued, and DeepSeek calls never touch it. -/
theorem pendingImage_consumed_at_attach :
    (∀ isp line gOut st,
      (callGoogle true isp line gOut st).2.1.pendingImage = none) ∧
    (∀ isp line gOut st a, st.pendingImage = some a →
      (callGoogle true isp line gOut st).2.2 =
        [.google ((if isp then st.history else st.history.dropLast).map gmapTurn)
          [Part.text line, Part.image a]]) ∧
    (∀ isp line gOut st, (callGoogle false isp line gOut st).2.1 = st) ∧
    (∀ dsk sysInstr isp line dOut st,
      (callDeepSeek dsk sysInstr isp line dOut st).2.1 = st) := by
  refine ⟨fun isp line gOut st => ?_, fun isp line gOut st a ha => ?_,
    fun isp line gOut st => ?_, fun dsk sysInstr isp line dOut st => ?_⟩
  · cases gOut <;> simp [callGoogle]
  · cases gOut <;> simp [callGoogle, ha]
  · cases gOut <;> simp [callGoogle]
  · cases dsk <;> cases dOut <;> simp [callDeepSeek]

/-- Witness for the amended C4, at a concrete state carrying an image. -/
theorem pendingImage_consumed_at_attach_witness :
    (callGoogle true false "hi" (.err "boom")
      ⟨[], some ⟨"I", "image/png"⟩, none⟩).2.1.pendingImage = none ∧
    (callGoogle true false "hi" (.err "boom")
      ⟨[], some ⟨"I", "image/png"⟩, none⟩).2.2 =
      [.google [] [Part.text "hi", Part.image ⟨"I", "image/png"⟩]] ∧
    (callGoogle false false "hi" (.err "x")
      ⟨[], some ⟨"I", "image/png"⟩, none⟩).2.1 =
      ⟨[], some ⟨"I", "image/png"⟩, none⟩ ∧
    (callDeepSeek true "S" false "hi" (.ok "r")
      ⟨[], some ⟨"I", "image/png"⟩, none⟩).2.1 =
      ⟨[], some ⟨"I", "image/png"⟩, none⟩ :=
  ⟨pendingImage_consumed_at_attach.1 false "hi" (.err "boom") _,
   pendingImage_consumed_at_attach.2.1 false "hi" (.err "boom") _ _ rfl,
   pendingImage_consumed_at_attach.2.2.1 false "hi" (.err "x") _,
   pendingImage_consumed_at_attach.2.2.2 true "S" false "hi" (.ok "r") _⟩

/-- Claim C8 counterexample: a DeepSeek provider call in the interactive
path sends the system turn's content verbatim — role `system`, no
`"SYSTEM INFO: "` marker — so the marker is not prepended "for each
backend". -/
theorem deepseek_system_turn_unprefixed :
    (chatAI "deepseek" false true "S" (.err "e") (.ok "r") false "hi"
      ⟨[⟨"system", "x"⟩], none, none⟩).trace =
      [.deepseek [⟨"system", "S"⟩, ⟨"system", "x"⟩, ⟨"user", "hi"⟩]] ∧
    ("x" : String) ≠ "SYSTEM INFO: " ++ "x" := by
  exact ⟨rfl, by decide⟩

/-- Claim C8 as amended: only the Gemini-bound context construction (used
identically by the interactive path and the agent loop) maps `system`
turns to the neutral role `user` with the literal `"SYSTEM INFO: "` marker
prepended; the DeepSeek-bound constructions pass the content through
unprefixed — the interactive one keeping role `system`, the loop one
mapping it to `user`. -/
theorem system_turn_mapping_per_backend :
    (∀ h : Turn, h.role = "system" →
      gmapTurn h = ⟨"user", "SYSTEM INFO: " ++ h.content⟩) ∧
    (∀ h : Turn, h.role = "system" → dmapTurn h = ⟨"system", h.content⟩) ∧
    (∀ h : Turn, h.role = "system" → taskDmapTurn h = ⟨"user", h.content⟩) := by
  refine ⟨?_, ?_, ?_⟩ <;> rintro ⟨r, c⟩ rfl <;> rfl

/-- Witness for the amended C8 at a concrete system turn. -/
theorem system_turn_mapping_per_backend_witness :
    gmapTurn ⟨"system", "x"⟩ = ⟨"user", "SYSTEM INFO: x"⟩ ∧
    dmapTurn ⟨"system", "x"⟩ = ⟨"system", "x"⟩ ∧
    taskDmapTurn ⟨"system", "x"⟩ = ⟨"user", "x"⟩ :=
  ⟨system_turn_mapping_per_backend.1 ⟨"system", "x"⟩ rfl,
   system_turn_mapping_per_backend.2.1 ⟨"system", "x"⟩ rfl,
   system_turn_mapping_per_backend.2.2 ⟨"system", "x"⟩ rfl⟩

/-- Claim C2 counterexample: in automatic mode the agent-loop provider
call does not fall back — with both backends configured and Google failing,
a STEP aborts after the one Google call: the secondary is never called,
no model turn is appended, and the loop ends `ABORTED` after 1 step. -/
theorem auto_mode_no_fallback_in_loop :
    (runTask "g" "auto" true true "S" (fun _ => .err "gfail")
      (fun _ => .ok "recovery") (fun _ _ h => .ok h) 3 [] none).state =
      .aborted "gfail" ∧
    (runTask "g" "auto" true true "S" (fun _ => .err "gfail")
      (fun _ => .ok "recovery") (fun _ _ h => .ok h) 3 [] none).steps = 1 ∧
    calledBackends (runTask "g" "auto" true true "S" (fun _ => .err "gfail")
      (fun _ => .ok "recovery") (fun _ _ h => .ok h) 3 [] none).trace =
      ["google"] ∧
    modelTurnCount (runTask "g" "auto" true true "S" (fun _ => .err "gfail")
      (fun _ => .ok "recovery") (fun _ _ h => .ok h) 3 [] none).history = 0 :=
  ⟨rfl, rfl, rfl, rfl⟩

/-- Claim C2 as amended: in automatic mode the *interactive chat path*
calls Google first and, when it fails, calls DeepSeek within the same
request — a successful secondary's output is used and exactly one model
turn is appended; a failing secondary's error propagates. The *agent-loop*
provider call performs no fallback: with the Gemini model configured, a
primary failure aborts the loop without any DeepSeek call. -/
theorem auto_mode_fallback_contract (sysInstr line e1 : String)
    (dOut : CallOutcome) (st0 : ChatState) :
    calledBackends
      (chatAI "auto" true true sysInstr (.err e1) dOut false line st0).trace =
      ["google", "deepseek"] ∧
    (∀ t, dOut = .ok t →
      (chatAI "auto" true true sysInstr (.err e1) dOut false line st0).response =
        .ok t ∧
      (chatAI "auto" true true sysInstr (.err e1) dOut false line st0).state.history =
        st0.history ++ [⟨"user", line⟩, ⟨"model", t⟩]) ∧
    (∀ e2, dOut = .err e2 →
      (chatAI "auto" true true sysInstr (.err e1) dOut false line st0).response =
        .error e2) ∧
    (∀ goal gOutN dOutN handlers m hist0 file0 e, gOutN 0 = .err e →
      (runTask goal "auto" true true sysInstr gOutN dOutN handlers (m + 1)
        hist0 file0).state = .aborted e ∧
      (runTask goal "auto" true true sysInstr gOutN dOutN handlers (m + 1)
        hist0 file0).steps = 1 ∧
      (calledBackends (runTask goal "auto" true true sysInstr gOutN dOutN
        handlers (m + 1) hist0 file0).trace).count "deepseek" = 0) := by
  refine ⟨?_, fun t ht => ?_, fun e2 he => ?_,
    fun goal gOutN dOutN handlers m hist0 file0 e hg => ?_⟩
  · cases dOut <;>
      simp [chatAI, gatewayCall, callGoogle, callDeepSeek, calledBackends]
  · subst ht
    refine ⟨?_, ?_⟩ <;>
      simp [chatAI, gatewayCall, callGoogle, callDeepSeek]
  · subst he
    simp [chatAI, gatewayCall, callGoogle, callDeepSeek]
  · refine ⟨?_, ?_, ?_⟩ <;>
      simp [runTask, runSteps, providerResult, stepTrace, hg, calledBackends]

/-- Witness for the amended C2 at concrete inputs. -/
theorem auto_mode_fallback_contract_witness :
    calledBackends
      (chatAI "auto" true true "S" (.err "g") (.ok "t") false "hi"
        ⟨[], none, none⟩).trace = ["google", "deepseek"] ∧
    (chatAI "auto" true true "S" (.err "g") (.ok "t") false "hi"
      ⟨[], none, none⟩).response = .ok "t" ∧
    (runTask "goal" "auto" true true "S" (fun _ => .err "boom")
      (fun _ => .ok "r") (fun _ _ h => .ok h) 3 [] none).state =
      .aborted "boom" :=
  ⟨(auto_mode_fallback_contract "S" "hi" "g" (.ok "t") ⟨[], none, none⟩).1,
   ((auto_mode_fallback_contract "S" "hi" "g" (.ok "t") ⟨[], none, none⟩).2.1
     "t" rfl).1,
   ((auto_mode_fallback_contract "S" "hi" "g" (.ok "t") ⟨[], none, none⟩).2.2.2
     "goal" (fun _ => .err "boom") (fun _ => .ok "r") (fun _ _ h => .ok h)
     2 [] none "boom" rfl).1⟩

/-- Helper: an action whose lowercased text is the completion token is
classified `done`. -/
theorem classifyAction_done {c : String} (h : jsToLower c = "/done") :
    classifyAction c = ActionKind.done := by
  simp [classifyAction, h]

/-- Helper: an action whose lowercased text is not the completion token is
never classified `done`. -/
theorem classifyAction_ne_done {c : String} (hd : jsToLower c ≠ "/done") :
    classifyAction c ≠ ActionKind.done := by
  intro h
  simp only [classifyAction] at h
  split at h
  · next hcond => exact hd (eq_of_beq hcond)
  · split at h
    · split at h
      · exact ActionKind.noConfusion h
      · exact ActionKind.noConfusion h
    · exact ActionKind.noConfusion h

/-- Claim C3 counterexample: the agent loop appends model turns without
persisting — three STEPs of plain-text replies leave three model-authored
turns in the conversation while the snapshot file is still absent. -/
theorem loop_append_without_persistence :
    modelTurnCount (runTask "g" "google" true true "S" (fun _ => .ok "hello")
      (fun _ => .ok "x") (fun _ _ h => .ok h) 3 [] none).history = 3 ∧
    (runTask "g" "google" true true "S" (fun _ => .ok "hello")
      (fun _ => .ok "x") (fun _ _ h => .ok h) 3 [] none).file = none :=
  ⟨rfl, rfl⟩

/-- Claim C3 as amended: a successful interactive chat call persists a full
overwrite snapshot of the entire conversation after appending the model
turn; the agent loop itself never writes the snapshot file — a loop run
leaves the file exactly as it found it. -/
theorem persistence_only_in_chat_path :
    (∀ mode gem dsk sysInstr gOut dOut isp line st0 t,
      (chatAI mode gem dsk sysInstr gOut dOut isp line st0).response = .ok t →
      (chatAI mode gem dsk sysInstr gOut dOut isp line st0).state.file =
        some (snapshot
          (chatAI mode gem dsk sysInstr gOut dOut isp line st0).state.history)) ∧
    (∀ mode gem dsk sysInstr gOut dOut handlers fuel n hist file inv tr,
      (runSteps mode gem dsk sysInstr gOut dOut handlers fuel n hist file
        inv tr).file = file) := by
  constructor
  · intro mode gem dsk sysInstr gOut dOut isp line st0 t h
    simp only [chatAI] at h ⊢
    rcases hG : gatewayCall mode gem dsk sysInstr gOut dOut isp line
        (if isp then st0
         else { st0 with history := st0.history ++ [⟨"user", line⟩] }) with
      ⟨r, st2, tr⟩
    cases r with
    | ok t2 => rfl
    | error e =>
      rw [hG] at h
      exact Except.noConfusion h
  · intro mode gem dsk sysInstr gOut dOut handlers fuel
    induction fuel with
    | zero => intro n hist file inv tr; rfl
    | succ f ih =>
      intro n hist file inv tr
      simp only [runSteps]
      cases hp : providerResult mode gem dsk (gOut n) (dOut n) with
      | error e => simp
      | ok resp =>
        cases hc : classifyAction (jsTrim resp) with
        | done => simp [hc]
        | registered cmd args =>
          simp only [hc]
          cases hh : handlers cmd args (hist ++ [⟨"model", jsTrim resp⟩]) with
          | error e => simp
          | ok hist2 => simp [ih]
        | unknownCommand => simp [hc, ih]
        | plain => simp [hc, ih]

/-- Witness for the amended C3: a concrete successful chat call persists
the snapshot, a concrete loop run leaves the absent file absent. -/
theorem persistence_only_in_chat_path_witness :
    (chatAI "google" true true "S" (.ok "reply") (.ok "r") false "hi"
      ⟨[], none, none⟩).state.file =
      some (snapshot (chatAI "google" true true "S" (.ok "reply") (.ok "r")
        false "hi" ⟨[], none, none⟩).state.history) ∧
    (runSteps "google" true true "S" (fun _ => .ok "hello") (fun _ => .ok "x")
      (fun _ _ h => .ok h) 3 0 [] none [] []).file = none :=
  ⟨persistence_only_in_chat_path.1 "google" true true "S" (.ok "reply")
      (.ok "r") false "hi" ⟨[], none, none⟩ "reply" rfl,
   persistence_only_in_chat_path.2 "google" true true "S" (fun _ => .ok "hello")
      (fun _ => .ok "x") (fun _ _ h => .ok h) 3 0 [] none [] []⟩

/-- Claim C6 counterexample: a provider that never returns the completion
token does not guarantee `MAX_STEPS_REACHED` after `maxSteps` STEPs — a
reply dispatching a handler whose awaited operation throws (here `/save`
failing, whose `fs.promises.writeFile` is not guarded inside the handler)
aborts the loop after a single STEP. -/
theorem loop_aborts_on_handler_error :
    (runTask "g" "google" true true "S" (fun _ => .ok "/save /nope/x.md")
      (fun _ => .ok "x")
      (fun c _ h => if c == "/save" then .error "ENOENT" else .ok h)
      3 [] none).state = .aborted "ENOENT" ∧
    (runTask "g" "google" true true "S" (fun _ => .ok "/save /nope/x.md")
      (fun _ => .ok "x")
      (fun c _ h => if c == "/save" then .error "ENOENT" else .ok h)
      3 [] none).steps = 1 :=
  ⟨rfl, rfl⟩

/-- Claim C6 as amended: when every provider call of the loop succeeds with
a reply that is never the completion token, and every dispatched handler
completes without throwing, the loop performs exactly `maxSteps` STEPs and
then ends in `MAX_STEPS_REACHED` — silently, no error value is produced; a
thrown provider or handler error instead aborts the loop early. -/
theorem bounded_silent_exhaustion (mode sysInstr goal : String) (gem dsk : Bool)
    (gOut dOut : Nat → CallOutcome)
    (handlers : String → List String → List Turn → Except String (List Turn))
    (maxSteps : Nat) (hist0 : List Turn) (file0 : Option Json)
    (hp : ∀ k, ∃ t, providerResult mode gem dsk (gOut k) (dOut k) = .ok t ∧
      jsToLower (jsTrim t) ≠ "/done")
    (hh : ∀ c a h, ∃ h2, handlers c a h = .ok h2) :
    (runTask goal mode gem dsk sysInstr gOut dOut handlers maxSteps hist0
      file0).state = .maxStepsReached ∧
    (runTask goal mode gem dsk sysInstr gOut dOut handlers maxSteps hist0
      file0).steps = maxSteps := by
  have key : ∀ fuel n hist file inv tr,
      (runSteps mode gem dsk sysInstr gOut dOut handlers fuel n hist file
        inv tr).state = .maxStepsReached ∧
      (runSteps mode gem dsk sysInstr gOut dOut handlers fuel n hist file
        inv tr).steps = n + fuel := by
    intro fuel
    induction fuel with
    | zero => intro n hist file inv tr; exact ⟨rfl, rfl⟩
    | succ f ih =>
      intro n hist file inv tr
      obtain ⟨t, hpt, hd⟩ := hp n
      simp only [runSteps, hpt]
      rcases hc : classifyAction (jsTrim t) with _ | ⟨cmd, args⟩ | _ | _
      · exact absurd hc (classifyAction_ne_done hd)
      · obtain ⟨h2, hh2⟩ := hh cmd args (hist ++ [⟨"model", jsTrim t⟩])
        simp only [hc, hh2]
        refine ⟨(ih _ _ _ _ _).1, ?_⟩
        rw [(ih _ _ _ _ _).2]
        omega
      · simp only [hc]
        refine ⟨(ih _ _ _ _ _).1, ?_⟩
        rw [(ih _ _ _ _ _).2]
        omega
      · simp only [hc]
        refine ⟨(ih _ _ _ _ _).1, ?_⟩
        rw [(ih _ _ _ _ _).2]
        omega
  have h := key maxSteps 0 (hist0 ++ [taskGoalTurn goal]) file0 [] []
  exact ⟨h.1, by rw [runTask, h.2]; omega⟩

/-- Witness for the amended C6: a provider always replying plain text runs
all 3 STEPs and exhausts silently. -/
theorem bounded_silent_exhaustion_witness :
    (runTask "g" "google" true true "S" (fun _ => .ok "hello")
      (fun _ => .ok "x") (fun _ _ h => .ok h) 3 [] none).state =
      .maxStepsReached ∧
    (runTask "g" "google" true true "S" (fun _ => .ok "hello")
      (fun _ => .ok "x") (fun _ _ h => .ok h) 3 [] none).steps = 3 :=
  bounded_silent_exhaustion "google" "S" "g" true true (fun _ => .ok "hello")
    (fun _ => .ok "x") (fun _ _ h => .ok h) 3 [] none
    (fun _ => ⟨"hello", rfl, by decide⟩) (fun _ _ h => ⟨h, rfl⟩)

/-- Claim C7 counterexample: with `maxSteps = 3` and a provider returning
the completion token on its first call, the loop reaches `DONE` after
exactly 1 STEP with exactly **one** model turn appended — not two, as the
claim states. -/
theorem single_model_turn_on_completion :
    (runTask "g" "google" true true "S" (fun _ => .ok "/done")
      (fun _ => .ok "x") (fun _ _ h => .ok h) 3 [] none).state = .done ∧
    (runTask "g" "google" true true "S" (fun _ => .ok "/done")
      (fun _ => .ok "x") (fun _ _ h => .ok h) 3 [] none).steps = 1 ∧
    modelTurnCount (runTask "g" "google" true true "S" (fun _ => .ok "/done")
      (fun _ => .ok "x") (fun _ _ h => .ok h) 3 [] none).history = 1 ∧
    modelTurnCount (runTask "g" "google" true true "S" (fun _ => .ok "/done")
      (fun _ => .ok "x") (fun _ _ h => .ok h) 3 [] none).history ≠ 2 :=
  ⟨rfl, rfl, rfl, by decide⟩

/-- Claim C7 as amended: with `maxSteps = 3` and a first provider reply
that trims, case-insensitively, to the completion token, the loop reaches
`DONE` after exactly 1 STEP, appending exactly one model turn beyond the
START user turn. -/
theorem completion_token_single_step (mode sysInstr goal : String)
    (gem dsk : Bool) (gOut dOut : Nat → CallOutcome)
    (handlers : String → List String → List Turn → Except String (List Turn))
    (hist0 : List Turn) (file0 : Option Json) (t0 : String)
    (hp0 : providerResult mode gem dsk (gOut 0) (dOut 0) = .ok t0)
    (hd : jsToLower (jsTrim t0) = "/done") :
    (runTask goal mode gem dsk sysInstr gOut dOut handlers 3 hist0
      file0).state = .done ∧
    (runTask goal mode gem dsk sysInstr gOut dOut handlers 3 hist0
      file0).steps = 1 ∧
    (runTask goal mode gem dsk sysInstr gOut dOut handlers 3 hist0
      file0).history = hist0 ++ [taskGoalTurn goal, ⟨"model", jsTrim t0⟩] ∧
    modelTurnCount (runTask goal mode gem dsk sysInstr gOut dOut handlers 3
      hist0 file0).history = modelTurnCount hist0 + 1 := by
  have hcl := classifyAction_done (c := jsTrim t0) hd
  refine ⟨?_, ?_, ?_, ?_⟩ <;>
    simp [runTask, runSteps, hp0, hcl, modelTurnCount, taskGoalTurn,
      List.filter_append]

/-- Witness for the amended C7: the token surrounded by whitespace and in
mixed case still completes in one STEP with one model turn. -/
theorem completion_token_single_step_witness :
    (runTask "g" "google" true true "S" (fun _ => .ok " /DONE ")
      (fun _ => .ok "x") (fun _ _ h => .ok h) 3 [] none).state = .done ∧
    (runTask "g" "google" true true "S" (fun _ => .ok " /DONE ")
      (fun _ => .ok "x") (fun _ _ h => .ok h) 3 [] none).steps = 1 ∧
    modelTurnCount (runTask "g" "google" true true "S" (fun _ => .ok " /DONE ")
      (fun _ => .ok "x") (fun _ _ h => .ok h) 3 [] none).history =
      modelTurnCount [] + 1 :=
  ⟨(completion_token_single_step "google" "S" "g" true true
      (fun _ => .ok " /DONE ") (fun _ => .ok "x") (fun _ _ h => .ok h) [] none
      " /DONE " rfl (by decide)).1,
   (completion_token_single_step "google" "S" "g" true true
      (fun _ => .ok " /DONE ") (fun _ => .ok "x") (fun _ _ h => .ok h) [] none
      " /DONE " rfl (by decide)).2.1,
   (completion_token_single_step "google" "S" "g" true true
      (fun _ => .ok " /DONE ") (fun _ => .ok "x") (fun _ _ h => .ok h) [] none
      " /DONE " rfl (by decide)).2.2.2⟩

/-- Claim C1 counterexample: a loop STEP whose model reply is
`/delete notes.txt` invokes the `/delete` handler through the command
table — precisely the handler that blocks on operator confirmation. -/
theorem loop_invokes_delete_handler :
    (runTask "clean up" "google" true true "S"
      (fun n => .ok (if n == 0 then "/delete notes.txt" else "hello"))
      (fun _ => .ok "x") (fun _ _ h => .ok h) 3 [] none).invoked =
      ["/delete"] ∧
    confirmationBlocking "/delete" = true :=
  ⟨rfl, rfl⟩

/-- Claim C1 as amended: the loop's dispatch filters model-emitted command
actions only by membership in the full `commands` table — the allow-list in
the START prompt is advisory text, not enforced — so every registered
handler is reachable, including the confirmation-blocking `/delete`. -/
theorem loop_dispatch_reaches_full_table :
    (∀ command cmd args, classifyAction command = .registered cmd args →
      commandNames.contains cmd = true) ∧
    classifyAction "/delete notes.txt" = .registered "/delete" ["notes.txt"] ∧
    confirmationBlocking "/delete" = true := by
  refine ⟨?_, rfl, rfl⟩
  intro command cmd args h
  simp only [classifyAction] at h
  split at h
  · exact ActionKind.noConfusion h
  · split at h
    · split at h
      · next hcont =>
        injection h with h1 h2
        subst h1
        exact hcont
      · exact ActionKind.noConfusion h
    · exact ActionKind.noConfusion h

/-- Witness for the amended C1: the dispatch of `/delete notes.txt` targets
a registered table entry. -/
theorem loop_dispatch_reaches_full_table_witness :
    commandNames.contains "/delete" = true ∧
    classifyAction "/delete notes.txt" = .registered "/delete" ["notes.txt"] :=
  ⟨loop_dispatch_reaches_full_table.1 "/delete notes.txt" "/delete"
      ["notes.txt"] loop_dispatch_reaches_full_table.2.1,
   loop_dispatch_reaches_full_table.2.1⟩

end Bex
